import Mathlib

/-!
Verification development for the Ashare BOLL analysis scripts
(test-zhongxinjinshu-history.py and test-zhongxinjinshu.py).

The scripts operate on numpy float arrays.  We embed the numeric values as
rationals and model an undefined value (the NaN produced by an unfilled
rolling window, or by a degenerate zero-denominator division) as `none` in
`Option ℚ`.  The embedding mirrors the IEEE/numpy behaviour the scripts rely
on: any comparison against an undefined value is `false`, and arithmetic on
an undefined value stays undefined.  A division whose denominator is zero is
modelled as undefined as well; in every run of the scripts the degenerate
denominator `upper - lower = 0` forces a zero numerator too (all window
closes coincide), so the 0/0 NaN case is the one that actually occurs, and
comparisons against it are `false` exactly as for `none`.
-/

/-- NaN-propagating subtraction on optional rationals (numpy `x - y`). -/
def osub : Option ℚ → Option ℚ → Option ℚ
  | some a, some b => some (a - b)
  | _, _ => none

/-- NaN-propagating multiplication on optional rationals (numpy `x * y`). -/
def omul : Option ℚ → Option ℚ → Option ℚ
  | some a, some b => some (a * b)
  | _, _ => none

/-- Division on optional rationals: undefined operands or a zero denominator
give an undefined result (numpy NaN). -/
def odiv : Option ℚ → Option ℚ → Option ℚ
  | some a, some b => if b = 0 then none else some (a / b)
  | _, _ => none

/-- Comparison `x < y` on optional rationals; `false` when either side is
undefined, as for numpy NaN. -/
def olt : Option ℚ → Option ℚ → Bool
  | some a, some b => decide (a < b)
  | _, _ => false

/-- Comparison `x > y` on optional rationals; `false` when either side is
undefined. -/
def ogt : Option ℚ → Option ℚ → Bool
  | some a, some b => decide (b < a)
  | _, _ => false

/-- Comparison `x <= y` on optional rationals; `false` when either side is
undefined. -/
def ole : Option ℚ → Option ℚ → Bool
  | some a, some b => decide (a ≤ b)
  | _, _ => false

/-- Comparison `x >= y` on optional rationals; `false` when either side is
undefined. -/
def oge : Option ℚ → Option ℚ → Bool
  | some a, some b => decide (b ≤ a)
  | _, _ => false

/-- Python negative indexing `xs[-k]` on a list of rationals; an index out of
range is modelled as `none` (the script would raise there). -/
def getNeg (xs : List ℚ) (k : ℕ) : Option ℚ :=
  if 1 ≤ k ∧ k ≤ xs.length then xs[xs.length - k]? else none

/-- Python negative indexing `xs[-k]` on an array that may already hold
undefined (NaN) entries. -/
def getNegO (xs : List (Option ℚ)) (k : ℕ) : Option ℚ :=
  (if 1 ≤ k ∧ k ≤ xs.length then xs[xs.length - k]? else none).join

/-- Band values at one bar: upper, middle and lower band, each possibly
undefined (NaN before the rolling window is filled). -/
structure Bands where
  up : Option ℚ
  mid : Option ℚ
  lo : Option ℚ

/-- The closed set of signal tags emitted by the history script: the six
crossing signals (lines 78-91), the six percent-b positional buckets
(lines 97-108), the two width-regime signals (lines 114-117) and the two
persistence signals (lines 121-124). -/
inductive Signal where
  | upperBreakout | upperReject | lowerBreakdown | lowerRebound
  | midBullish | midBearish
  | nearUpper | strongZone | neutralUp | neutralDown | weakZone | nearLower
  | widthExpand | widthContract
  | strongCont | weakCont
deriving DecidableEq, Repr

/-- Condition of line 78: `prev_price <= prev_up and current_price > current_up`. -/
def upperBreakoutCond (pp cp : Option ℚ) (pb cb : Bands) : Bool :=
  ole pp pb.up && ogt cp cb.up

/-- Condition of line 80: `prev_price >= prev_up and current_price < current_up`. -/
def upperRejectCond (pp cp : Option ℚ) (pb cb : Bands) : Bool :=
  oge pp pb.up && olt cp cb.up

/-- Condition of line 82: `prev_price >= prev_lower and current_price < current_lower`. -/
def lowerBreakdownCond (pp cp : Option ℚ) (pb cb : Bands) : Bool :=
  oge pp pb.lo && olt cp cb.lo

/-- Condition of line 84: `prev_price <= prev_lower and current_price > current_lower`. -/
def lowerReboundCond (pp cp : Option ℚ) (pb cb : Bands) : Bool :=
  ole pp pb.lo && ogt cp cb.lo

/-- Condition of line 88: `prev_price <= prev_mid and current_price > current_mid`. -/
def midBullishCond (pp cp : Option ℚ) (pb cb : Bands) : Bool :=
  ole pp pb.mid && ogt cp cb.mid

/-- Condition of line 90: `prev_price >= prev_mid and current_price < current_mid`. -/
def midBearishCond (pp cp : Option ℚ) (pb cb : Bands) : Bool :=
  oge pp pb.mid && olt cp cb.mid

/-- Lines 78-85 of the history script: the four band-boundary checks form a
single if/elif chain, so at most one of the four signals is appended. -/
def boundarySignals (pp cp : Option ℚ) (pb cb : Bands) : List Signal :=
  if upperBreakoutCond pp cp pb cb then [Signal.upperBreakout]
  else if upperRejectCond pp cp pb cb then [Signal.upperReject]
  else if lowerBreakdownCond pp cp pb cb then [Signal.lowerBreakdown]
  else if lowerReboundCond pp cp pb cb then [Signal.lowerRebound]
  else []

/-- Lines 88-91: the two midline checks form a second, separate if/elif
chain, appended after the boundary chain. -/
def midSignals (pp cp : Option ℚ) (pb cb : Bands) : List Signal :=
  if midBullishCond pp cp pb cb then [Signal.midBullish]
  else if midBearishCond pp cp pb cb then [Signal.midBearish]
  else []

/-- All crossing signals of one evaluation: the boundary chain result
followed by the midline chain result (lines 77-91). -/
def crossingSignals (pp cp : Option ℚ) (pb cb : Bands) : List Signal :=
  boundarySignals pp cp pb cb ++ midSignals pp cp pb cb

/-- Line 94: `percent_b = (current_price - current_lower) / (current_up - current_lower)`.
Total function: a degenerate band (`up = lo`) yields an undefined result,
never an arithmetic fault. -/
def percentB (cp cu cl : Option ℚ) : Option ℚ :=
  odiv (osub cp cl) (osub cu cl)

/-- Lines 97-108: the six percent-b positional buckets, an if/elif chain
selecting exactly one bucket tag (an undefined percent-b fails every
comparison and lands in the final bucket, as NaN does in the script). -/
def bucketSignal (pb : Option ℚ) : Signal :=
  if ogt pb (some (9/10)) then Signal.nearUpper
  else if ogt pb (some (7/10)) then Signal.strongZone
  else if ogt pb (some (1/2)) then Signal.neutralUp
  else if ogt pb (some (3/10)) then Signal.neutralDown
  else if ogt pb (some (1/10)) then Signal.weakZone
  else Signal.nearLower

/-- Line 111: the scalar band width `(current_up - current_lower) / current_mid`. -/
def bollWidthLast (u m l : List (Option ℚ)) : Option ℚ :=
  odiv (osub (getNegO u 1) (getNegO l 1)) (getNegO m 1)

/-- Line 112: `width_change = boll_width / ((up[-5] - lower[-5]) / mid[-5])
if len(mid) >= 5 else 1`. -/
def widthChange (u m l : List (Option ℚ)) : Option ℚ :=
  if 5 ≤ m.length then
    odiv (bollWidthLast u m l) (odiv (osub (getNegO u 5) (getNegO l 5)) (getNegO m 5))
  else some 1

/-- Lines 114-117: width-regime signals from `width_change`. -/
def widthSignals (u m l : List (Option ℚ)) : List Signal :=
  if ogt (widthChange u m l) (some (11/10)) then [Signal.widthExpand]
  else if olt (widthChange u m l) (some (9/10)) then [Signal.widthContract]
  else []

/-- Line 120: `above_mid = sum(CLOSE[-5:] > mid[-5:])` — how many of the
last five closes compare strictly above the middle band (a NaN middle value
makes the comparison false, as in numpy). -/
def aboveMid (close : List ℚ) (m : List (Option ℚ)) : ℕ :=
  ((close.drop (close.length - 5)).zip (m.drop (m.length - 5))).countP
    (fun pm => ogt (some pm.1) pm.2)

/-- Follows the words of the spec and claim C6, for comparison with the
code: how many of the last five closes sit strictly below the middle band. -/
def specBelowMid (close : List ℚ) (m : List (Option ℚ)) : ℕ :=
  ((close.drop (close.length - 5)).zip (m.drop (m.length - 5))).countP
    (fun pm => olt (some pm.1) pm.2)

/-- Lines 121-124: persistence signals from `above_mid`. -/
def persistenceSignals (close : List ℚ) (m : List (Option ℚ)) : List Signal :=
  if 4 ≤ aboveMid close m then [Signal.strongCont]
  else if aboveMid close m ≤ 1 then [Signal.weakCont]
  else []

/-- The percent-b input of the signal block, read off the last bar of the
arrays as the script does (lines 24-27 and 94). -/
def scriptPB (close : List ℚ) (u l : List (Option ℚ)) : Option ℚ :=
  percentB (getNeg close 1) (getNegO u 1) (getNegO l 1)

/-- The crossing-signal part of one run (lines 72-91), reading the last two
bars of the price and band arrays. -/
def crossingPart (close : List ℚ) (u m l : List (Option ℚ)) : List Signal :=
  crossingSignals (getNeg close 2) (getNeg close 1)
    ⟨getNegO u 2, getNegO m 2, getNegO l 2⟩
    ⟨getNegO u 1, getNegO m 1, getNegO l 1⟩

/-- Lines 77-124: the full ordered signal list of one run — crossing
signals, then one positional bucket exactly when no crossing signal fired
(`if not signals:` at line 96), then width-regime signals, then persistence
signals. -/
def aggSignals (close : List ℚ) (u m l : List (Option ℚ)) : List Signal :=
  crossingPart close u m l
    ++ (if crossingPart close u m l = [] then [bucketSignal (scriptPB close u l)] else [])
    ++ widthSignals u m l
    ++ persistenceSignals close m

/-- Recognizer for the six percent-b positional bucket tags. -/
def isBucket : Signal → Bool
  | Signal.nearUpper | Signal.strongZone | Signal.neutralUp
  | Signal.neutralDown | Signal.weakZone | Signal.nearLower => true
  | _ => false

/-- Line 136 advisory string. -/
def adviceReduce : String := "建议: 持仓者考虑减仓，空仓者观望"

/-- Line 138 advisory string. -/
def adviceRebound : String := "建议: 关注反弹机会，可轻仓试多"

/-- Line 140 advisory string. -/
def adviceRange : String := "建议: 震荡行情，高抛低吸或观望"

/-- Line 142 advisory string. -/
def adviceTrend : String := "建议: 跟随趋势，中轨上方偏多，中轨下方偏空"

/-- Line 145 status message for a series with fewer than two bars. -/
def msgInsufficient : String := "数据不足，无法生成信号"

/-- Lines 135-142: the advisory rule table, an if/elif chain on `percent_b`
and `width_change` evaluated top to bottom, first match winning.  Every
comparison against an undefined operand is false, as for NaN. -/
def advisoryStr (pb wc : Option ℚ) : String :=
  if ogt pb (some (9/10)) && ogt wc (some (21/20)) then adviceReduce
  else if olt pb (some (1/10)) && ogt wc (some (21/20)) then adviceRebound
  else if (ogt pb (some (3/10)) && olt pb (some (7/10))) && olt wc (some (9/10)) then adviceRange
  else adviceTrend

/-- Four price regions of lines 36-43, an if/elif chain on the latest close
against the latest band triple. -/
inductive Region where
  | aboveUpper | upperHalf | lowerHalf | belowLower
deriving DecidableEq, Repr

/-- Lines 36-43 (same in both scripts): classify the current price against
the current band triple. -/
def position (price u m l : Option ℚ) : Region :=
  if ogt price u then Region.aboveUpper
  else if ogt price m then Region.upperHalf
  else if ogt price l then Region.lowerHalf
  else Region.belowLower

/-- Width-trend classification values of lines 51-56. -/
inductive WidthTrend where
  | expanding | contracting | stable
deriving DecidableEq, Repr

/-- Line 47 (both scripts): the elementwise band-width array
`(up - lower) / mid`. -/
def bollWidthArr (u m l : List (Option ℚ)) : List (Option ℚ) :=
  (u.zip (l.zip m)).map (fun t => odiv (osub t.1 t.2.1) t.2.2)

/-- Line 48: `current_width = boll_width[-1]`. -/
def currentWidth (u m l : List (Option ℚ)) : Option ℚ :=
  getNegO (bollWidthArr u m l) 1

/-- Line 49: the script takes the fifth-from-last width when five points exist, else the first. -/
def prevWidth (u m l : List (Option ℚ)) : Option ℚ :=
  if 5 ≤ (bollWidthArr u m l).length then getNegO (bollWidthArr u m l) 5
  else ((bollWidthArr u m l)[0]?).join

/-- Lines 51-56 (both scripts): classify the width trend by comparing
`current_width` against `prev_width * 1.05` and `prev_width * 0.95`. -/
def widthTrend (u m l : List (Option ℚ)) : WidthTrend :=
  if ogt (currentWidth u m l) (omul (prevWidth u m l) (some (21/20))) then WidthTrend.expanding
  else if olt (currentWidth u m l) (omul (prevWidth u m l) (some (19/20))) then WidthTrend.contracting
  else WidthTrend.stable

/-- Follows the words of the spec (section 4.5) and claim C5, for comparison
with `widthTrend`: compare width at the latest index against width at index
latest minus 5, falling back to the earliest index when fewer than six
points exist, and classify the ratio against 1.05 and 0.95. -/
def specWidthTrend (u m l : List (Option ℚ)) : WidthTrend :=
  let bw := bollWidthArr u m l
  let lb := if 6 ≤ bw.length then getNegO bw 6 else (bw[0]?).join
  let r := odiv (currentWidth u m l) lb
  if ogt r (some (21/20)) then WidthTrend.expanding
  else if olt r (some (19/20)) then WidthTrend.contracting
  else WidthTrend.stable

/-- Ratio-based width classification used to state the amended claim C5. -/
def ratioClass (r : ℚ) : WidthTrend :=
  if 21/20 < r then WidthTrend.expanding
  else if r < 19/20 then WidthTrend.contracting
  else WidthTrend.stable

/-- Modelled from the spec: section 4.1, the rolling mean of the window of
width W ending at index i (the MyTT `MA` imported by the scripts is not
under src). -/
def winMean (xs : List ℚ) (W i : ℕ) : ℚ :=
  (((xs.drop (i + 1 - W)).take W).sum) / (W : ℚ)

/-- Modelled from the spec: section 4.1 MovingAverageCalculator; index i
holds the window mean when the window is filled, else undefined. -/
def MA (xs : List ℚ) (W : ℕ) : List (Option ℚ) :=
  (List.range xs.length).map (fun i =>
    if 1 ≤ W ∧ W ≤ i + 1 then some (winMean xs W i) else none)

/-- Modelled from the spec: section 4.2, the population variance of the
window of width W ending at index i. -/
def winVariance (xs : List ℚ) (W i : ℕ) : ℚ :=
  ((((xs.drop (i + 1 - W)).take W).map (fun x => (x - winMean xs W i) ^ 2)).sum) / (W : ℚ)

/-- Modelled from the spec: a rational square root, exact on perfect
squares; the claims only evaluate it where the variance is a perfect square
(in particular zero), so the band values used by the theorems are exact. -/
def ratSqrt (q : ℚ) : ℚ :=
  if q ≤ 0 then 0 else (Nat.sqrt q.num.toNat : ℚ) / (Nat.sqrt q.den : ℚ)

/-- Modelled from the spec: section 4.2 BandCalculator middle band with the
default window W = 20 used by the scripts. -/
def bollMid (xs : List ℚ) : List (Option ℚ) :=
  MA xs 20

/-- Modelled from the spec: section 4.2 BandCalculator upper band with the
default window W = 20 and multiplier K = 2. -/
def bollUpper (xs : List ℚ) : List (Option ℚ) :=
  (List.range xs.length).map (fun i =>
    if 20 ≤ i + 1 then some (winMean xs 20 i + 2 * ratSqrt (winVariance xs 20 i)) else none)

/-- Modelled from the spec: section 4.2 BandCalculator lower band with the
default window W = 20 and multiplier K = 2. -/
def bollLower (xs : List ℚ) : List (Option ℚ) :=
  (List.range xs.length).map (fun i =>
    if 20 ≤ i + 1 then some (winMean xs 20 i - 2 * ratSqrt (winVariance xs 20 i)) else none)

/-- The percent-b value the history script computes at line 94 from the
close series alone. -/
def scriptPercentB (close : List ℚ) : Option ℚ :=
  scriptPB close (bollUpper close) (bollLower close)

/-- The `width_change` value the history script computes at line 112 from
the close series alone. -/
def scriptWidthChange (close : List ℚ) : Option ℚ :=
  widthChange (bollUpper close) (bollMid close) (bollLower close)

/-- Advisory-relevant control flow of the history script: an empty series
raises IndexError at `CLOSE[-1]` (line 24); with at least two bars the
advisory table of lines 135-142 runs; with exactly one bar line 145 prints
the insufficient-data message. -/
def runScript (close : List ℚ) : Except String String :=
  match close with
  | [] => Except.error "IndexError"
  | _ :: _ =>
    if 2 ≤ close.length then
      Except.ok (advisoryStr (scriptPercentB close) (scriptWidthChange close))
    else Except.ok msgInsufficient

lemma isBucket_bucketSignal (pb : Option ℚ) : isBucket (bucketSignal pb) = true := by
  unfold bucketSignal
  split_ifs <;> rfl

lemma crossing_countP (pp cp : Option ℚ) (pb cb : Bands) :
    (crossingSignals pp cp pb cb).countP isBucket = 0 := by
  unfold crossingSignals boundarySignals midSignals
  split_ifs <;> rfl

lemma width_countP (u m l : List (Option ℚ)) :
    (widthSignals u m l).countP isBucket = 0 := by
  unfold widthSignals
  split_ifs <;> rfl

lemma persistence_countP (c : List ℚ) (m : List (Option ℚ)) :
    (persistenceSignals c m).countP isBucket = 0 := by
  unfold persistenceSignals
  split_ifs <;> rfl

lemma crossingPart_countP (close : List ℚ) (u m l : List (Option ℚ)) :
    (crossingPart close u m l).countP isBucket = 0 :=
  crossing_countP _ _ _ _

/-- Claim C3: for every input series with at least 2 bars, the signal list of one
run contains exactly one percent-b positional bucket signal when no crossing
signal fired, and none when at least one crossing signal is present. -/
theorem bucket_iff_no_crossing (close : List ℚ) (u m l : List (Option ℚ)) (_h : 2 ≤ close.length) :
    (aggSignals close u m l).countP isBucket
      = if crossingPart close u m l = [] then 1 else 0 := by
  by_cases hc : crossingPart close u m l = [] <;>
    simp [aggSignals, hc, List.countP_append, crossingPart_countP,
      width_countP, persistence_countP, List.countP_cons, isBucket_bucketSignal]

/-- Witness for claim C3 at a concrete two-bar input. -/
theorem bucket_iff_no_crossing_witness :
    (aggSignals [10, 20] [none, none] [none, none] [none, none]).countP isBucket
      = if crossingPart [10, 20] [none, none] [none, none] [none, none] = [] then 1 else 0 :=
  bucket_iff_no_crossing [10, 20] [none, none] [none, none] [none, none] (by norm_num)

/-- Claim C1 (amended): the four band-boundary checks form one first-match chain
emitting at most one boundary signal, and the two midline checks form a second,
separate first-match chain emitting at most one midline signal; the two chains
are evaluated independently of each other, so a boundary signal and a midline
signal can both fire — in particular a midline bullish cross and an upper
breakout fire together on a concrete input. -/
theorem crossing_chain_structure :
    (∀ (pp cp : Option ℚ) (pb cb : Bands),
      (boundarySignals pp cp pb cb).length ≤ 1 ∧ (midSignals pp cp pb cb).length ≤ 1) ∧
    crossingSignals (some 5) (some 11) ⟨some 10, some 8, some 2⟩ ⟨some 10, some 8, some 2⟩
      = [Signal.upperBreakout, Signal.midBullish] := by
  constructor
  · intro pp cp pb cb
    constructor
    · unfold boundarySignals
      split_ifs <;> simp
    · unfold midSignals
      split_ifs <;> simp
  · norm_num [crossingSignals, boundarySignals, midSignals, upperBreakoutCond, upperRejectCond,
      lowerBreakdownCond, lowerReboundCond, midBullishCond, midBearishCond, ole, ogt, oge, olt]

/-- Witness for claim C1 at a concrete input. -/
theorem crossing_chain_structure_witness :
    (boundarySignals (some 12) (some 4) ⟨some 10, some 8, some 5⟩ ⟨some 10, some 8, some 5⟩).length ≤ 1 :=
  (crossing_chain_structure.1 (some 12) (some 4)
    ⟨some 10, some 8, some 5⟩ ⟨some 10, some 8, some 5⟩).1

/-- Counterexample for claim C1 as stated: the six checks are not evaluated
independently — on a bar pair falling from above the upper band to below the
lower band the lower-breakdown condition holds, yet the elif chain of
lines 78-85 emits only the upper-rejection signal and no lower-breakdown
signal. -/
theorem crossing_independent_cex :
    lowerBreakdownCond (some 12) (some 4) ⟨some 10, some 8, some 5⟩ ⟨some 10, some 8, some 5⟩ = true ∧
    Signal.lowerBreakdown ∉
      crossingSignals (some 12) (some 4) ⟨some 10, some 8, some 5⟩ ⟨some 10, some 8, some 5⟩ := by
  constructor
  · norm_num [lowerBreakdownCond, oge, olt]
  · norm_num [crossingSignals, boundarySignals, midSignals, upperBreakoutCond, upperRejectCond,
      lowerBreakdownCond, lowerReboundCond, midBullishCond, midBearishCond, ole, ogt, oge, olt]
    decide

/-- Claim C6 (amended): the persistence signal is "strong continuation" exactly
when at least 4 of the last 5 closes sit strictly above the middle band, is
"weak continuation" exactly when at most 1 of the last 5 closes sits strictly
above the middle band (closes tying the middle band count toward weakness),
and is absent exactly when 2 or 3 of the last 5 closes sit above. -/
theorem persistence_rule (close : List ℚ) (m : List (Option ℚ)) :
    (persistenceSignals close m = [Signal.strongCont] ↔ 4 ≤ aboveMid close m) ∧
    (persistenceSignals close m = [Signal.weakCont] ↔ aboveMid close m ≤ 1) ∧
    (persistenceSignals close m = [] ↔ (2 ≤ aboveMid close m ∧ aboveMid close m ≤ 3)) := by
  unfold persistenceSignals
  split_ifs with h1 h2 <;> refine ⟨?_, ?_, ?_⟩ <;> simp_all <;> omega

/-- Witness for claim C6 at a concrete five-bar window. -/
theorem persistence_rule_witness :
    persistenceSignals [10, 10, 10, 10, 10]
      [some 1, some 1, some 1, some 1, some 1] = [Signal.strongCont] :=
  (persistence_rule [10, 10, 10, 10, 10] [some 1, some 1, some 1, some 1, some 1]).1.mpr
    (by norm_num [aboveMid, ogt, List.countP_cons])

/-- Counterexample for claim C6 as stated: with closes [10,10,10,11,9] against a
constant middle band of 10, only one close is strictly below the middle band,
yet the code emits the weak-continuation signal because only one close is
strictly above. -/
theorem persistence_tie_cex :
    persistenceSignals [10, 10, 10, 11, 9]
      [some 10, some 10, some 10, some 10, some 10] = [Signal.weakCont] ∧
    specBelowMid [10, 10, 10, 11, 9] [some 10, some 10, some 10, some 10, some 10] = 1 := by
  constructor <;>
    norm_num [persistenceSignals, aboveMid, specBelowMid, ogt, olt, List.countP_cons]

/-- Claim C7: for every price and band pair with upper distinct from lower,
percent-b equals (price - lower) / (upper - lower) exactly, with no clamping
(the concrete value 6/5 above 1 is produced); when upper equals lower the
total function yields the undefined value and no arithmetic fault. -/
theorem percentb_formula (p u l : ℚ) :
    (u ≠ l → percentB (some p) (some u) (some l) = some ((p - l) / (u - l))) ∧
    (u = l → percentB (some p) (some u) (some l) = none) ∧
    percentB (some 12) (some 10) (some 0) = some (6/5) := by
  refine ⟨?_, ?_, ?_⟩
  · intro h
    simp [percentB, osub, odiv, sub_eq_zero, h]
  · intro h
    subst h
    simp [percentB, osub, odiv]
  · norm_num [percentB, osub, odiv]

/-- Witness for claim C7 at a concrete non-degenerate band. -/
theorem percentb_formula_witness :
    percentB (some 7) (some 10) (some 5) = some ((7 - 5) / (10 - 5)) :=
  (percentb_formula 7 10 5).1 (by norm_num)

/-- Claim C8: under the band ordering lower ≤ middle ≤ upper, the position
classifier maps every price to exactly one of the four regions, characterized
by price > upper, upper ≥ price > middle, middle ≥ price > lower and
price ≤ lower respectively. -/
theorem position_regions (p u m l : ℚ) (hlm : l ≤ m) (hmu : m ≤ u) :
    (position (some p) (some u) (some m) (some l) = Region.aboveUpper ↔ u < p) ∧
    (position (some p) (some u) (some m) (some l) = Region.upperHalf ↔ p ≤ u ∧ m < p) ∧
    (position (some p) (some u) (some m) (some l) = Region.lowerHalf ↔ p ≤ m ∧ l < p) ∧
    (position (some p) (some u) (some m) (some l) = Region.belowLower ↔ p ≤ l) := by
  simp only [position, ogt, decide_eq_true_eq]
  split_ifs with h1 h2 h3 <;> refine ⟨?_, ?_, ?_, ?_⟩ <;> constructor <;> intro hx <;>
    first
    | rfl
    | exact Region.noConfusion hx
    | exact hx.elim
    | linarith
    | exact ⟨by linarith, by linarith⟩

/-- Witness for claim C8 at a concrete price above the upper band. -/
theorem position_regions_witness :
    position (some 11) (some 10) (some 8) (some 5) = Region.aboveUpper :=
  (position_regions 11 10 8 5 (by norm_num) (by norm_num)).1.mpr (by norm_num)

/-- Claim C4: the advisory generator is a deterministic rule table evaluated top
to bottom with first match winning — percentB > 0.9 and widthRatio > 1.05 give
the reduce-exposure advice; else percentB < 0.1 and widthRatio > 1.05 give the
watch-for-rebound advice; else 0.3 < percentB < 0.7 and widthRatio < 0.9 give
the range-bound advice; else the follow-the-trend advice — and exactly one of
the four advisory strings is produced. -/
theorem advisory_table_first_match (pb wc : ℚ) :
    (advisoryStr (some pb) (some wc) = adviceReduce ↔ (9/10 < pb ∧ 21/20 < wc)) ∧
    (advisoryStr (some pb) (some wc) = adviceRebound ↔
      (¬(9/10 < pb ∧ 21/20 < wc) ∧ pb < 1/10 ∧ 21/20 < wc)) ∧
    (advisoryStr (some pb) (some wc) = adviceRange ↔
      (¬(9/10 < pb ∧ 21/20 < wc) ∧ ¬(pb < 1/10 ∧ 21/20 < wc) ∧
        (3/10 < pb ∧ pb < 7/10) ∧ wc < 9/10)) ∧
    (advisoryStr (some pb) (some wc) = adviceTrend ↔
      (¬(9/10 < pb ∧ 21/20 < wc) ∧ ¬(pb < 1/10 ∧ 21/20 < wc) ∧
        ¬((3/10 < pb ∧ pb < 7/10) ∧ wc < 9/10))) ∧
    advisoryStr (some pb) (some wc) ∈ [adviceReduce, adviceRebound, adviceRange, adviceTrend] := by
  have d12 : adviceReduce ≠ adviceRebound := by decide
  have d13 : adviceReduce ≠ adviceRange := by decide
  have d14 : adviceReduce ≠ adviceTrend := by decide
  have d23 : adviceRebound ≠ adviceRange := by decide
  have d24 : adviceRebound ≠ adviceTrend := by decide
  have d34 : adviceRange ≠ adviceTrend := by decide
  have d21 := d12.symm
  have d31 := d13.symm
  have d41 := d14.symm
  have d32 := d23.symm
  have d42 := d24.symm
  have d43 := d34.symm
  simp only [advisoryStr, ogt, olt, Bool.and_eq_true, decide_eq_true_eq]
  split_ifs with h1 h2 h3 <;> simp_all [not_lt, not_and]

/-- Witness for claim C4 at concrete inputs matching the first rule. -/
theorem advisory_table_first_match_witness :
    advisoryStr (some 1) (some 2) = adviceReduce :=
  ((advisory_table_first_match 1 2).1).mpr (by norm_num)

/-- Claim C5 (amended): the width trend compares the width at the latest index
against the width at the fifth-from-last index — that is, index latest - 4 —
falling back to the earliest index when fewer than 5 points exist; whenever
both widths are defined and the lookback width is positive, the comparison is
equivalent to classifying the ratio as expanding above 1.05, contracting below
0.95 and stable otherwise. -/
theorem width_trend_lookback (u m l : List (Option ℚ)) (c p : ℚ)
    (hc : currentWidth u m l = some c) (hp : prevWidth u m l = some p) (hpos : 0 < p) :
    widthTrend u m l = ratioClass (c / p) := by
  have h1 : (p * (21/20) < c) ↔ ((21/20 : ℚ) < c / p) := by
    rw [lt_div_iff₀ hpos, mul_comm]
  have h2 : (c < p * (19/20)) ↔ (c / p < 19/20) := by
    rw [div_lt_iff₀ hpos, mul_comm]
  unfold widthTrend ratioClass
  rw [hc, hp]
  simp only [omul, ogt, olt, decide_eq_true_eq, h1, h2]

/-- Witness for claim C5 at concrete six-point band arrays. -/
theorem width_trend_lookback_witness :
    widthTrend [some 1, some 2, some 2, some 2, some 2, some 3]
      [some 1, some 1, some 1, some 1, some 1, some 1]
      [some 0, some 0, some 0, some 0, some 0, some 0] = ratioClass (3 / 2) :=
  width_trend_lookback _ _ _ 3 2
    (by norm_num [currentWidth, bollWidthArr, getNegO, odiv, osub])
    (by norm_num [prevWidth, bollWidthArr, getNegO, odiv, osub])
    (by norm_num)

/-- Counterexample for claim C5 as stated: on six-point arrays the code reads
the width at index latest - 4 (value 2) and classifies expanding, while the
lookback index latest - 5 named by the claim (value 11/5) would classify
stable. -/
theorem width_lookback_cex :
    widthTrend [some (11/5), some 2, some 2, some 2, some 2, some (11/5)]
      [some 1, some 1, some 1, some 1, some 1, some 1]
      [some 0, some 0, some 0, some 0, some 0, some 0] = WidthTrend.expanding ∧
    specWidthTrend [some (11/5), some 2, some 2, some 2, some 2, some (11/5)]
      [some 1, some 1, some 1, some 1, some 1, some 1]
      [some 0, some 0, some 0, some 0, some 0, some 0] = WidthTrend.stable := by
  constructor <;>
    norm_num [widthTrend, specWidthTrend, currentWidth, prevWidth, bollWidthArr,
      getNegO, omul, ogt, olt, odiv, osub]

lemma advisoryStr_none (wc : Option ℚ) : advisoryStr none wc = adviceTrend := by
  simp [advisoryStr, ogt, olt]

lemma constPercentB : scriptPercentB (List.replicate 20 (10:ℚ)) = none := by
  simp [scriptPercentB, scriptPB, percentB, getNeg, getNegO, bollUpper, bollLower,
    List.getElem?_map, List.getElem?_range, winMean, winVariance, List.take_replicate,
    List.map_replicate, List.sum_replicate, ratSqrt, osub, odiv]
  norm_num

lemma constWidthChange : scriptWidthChange (List.replicate 20 (10:ℚ)) = none := by
  simp [scriptWidthChange, widthChange, bollMid, MA, bollWidthLast, getNegO, bollUpper, bollLower,
    List.getElem?_map, List.getElem?_range, osub, odiv]

lemma constRun : runScript (List.replicate 20 (10:ℚ)) = Except.ok adviceTrend := by
  have h : runScript (List.replicate 20 (10:ℚ)) =
      Except.ok (advisoryStr (scriptPercentB (List.replicate 20 10))
        (scriptWidthChange (List.replicate 20 10))) := rfl
  rw [h, constPercentB, advisoryStr_none]

/-- Claim C2 (amended): when percent-b is undefined every advisory-table
comparison is false, so the advisory falls through to the follow-the-trend
string; in particular the 20-bar constant close series yields an undefined
percent-b and the follow-the-trend advisory — no "insufficient data for
advisory" report exists in the code. -/
theorem undefined_percentb_advisory :
    (∀ wc : Option ℚ, advisoryStr none wc = adviceTrend) ∧
    scriptPercentB (List.replicate 20 (10:ℚ)) = none ∧
    runScript (List.replicate 20 (10:ℚ)) = Except.ok adviceTrend :=
  ⟨advisoryStr_none, constPercentB, constRun⟩

/-- Witness for claim C2 at a concrete width-change value. -/
theorem undefined_percentb_advisory_witness :
    advisoryStr none (some 2) = adviceTrend :=
  undefined_percentb_advisory.1 (some 2)

/-- Counterexample for claim C2 as stated: the 20-bar constant series [10,...,10]
produces the follow-the-trend advisory, which is not the string
"insufficient data for advisory". -/
theorem constant_series_advisory_cex :
    runScript (List.replicate 20 (10:ℚ)) = Except.ok adviceTrend ∧
    adviceTrend ≠ "insufficient data for advisory" :=
  ⟨constRun, by decide⟩

/-- Claim C9 (amended): on an empty fetched series the program raises an
IndexError at the unguarded access to the last close, a crash rather than a
report; the insufficient-data status line is produced only for a one-bar
series, which fails the two-bar guard of the signal block. -/
theorem empty_series_crash :
    runScript ([] : List ℚ) = Except.error "IndexError" ∧
    runScript [(10:ℚ)] = Except.ok msgInsufficient :=
  ⟨rfl, rfl⟩

/-- Counterexample for claim C9 as stated: the empty series makes the program
raise IndexError instead of reporting the insufficient-data status. -/
theorem empty_series_cex :
    runScript ([] : List ℚ) = Except.error "IndexError" ∧
    runScript ([] : List ℚ) ≠ Except.ok msgInsufficient :=
  ⟨rfl, fun h => Except.noConfusion h⟩

lemma widthChange_short (u m l : List (Option ℚ)) (hm : m.length < 5) :
    widthChange u m l = some 1 := by
  unfold widthChange
  rw [if_neg (by omega)]

lemma advisoryStr_one (pb : Option ℚ) : advisoryStr pb (some 1) = adviceTrend := by
  have hw : ogt (some (1:ℚ)) (some (21/20)) = false := by
    simp [ogt]
    norm_num
  have hw2 : olt (some (1:ℚ)) (some (9/10)) = false := by
    simp [olt]
    norm_num
  simp [advisoryStr, hw, hw2]

lemma bollMid_length (xs : List ℚ) : (bollMid xs).length = xs.length := by
  simp [bollMid, MA]

/-- Claim C10: with fewer than 5 band points the aggregator width ratio is
exactly 1, so no width-regime signal is emitted and the advisory table always
falls through to the follow-the-trend rule; consequently every series of at
least 2 and fewer than 5 bars gets the follow-the-trend advisory. -/
theorem short_series_width_one (u m l : List (Option ℚ)) (close : List ℚ)
    (hm : m.length < 5) (h2 : 2 ≤ close.length) (h5 : close.length < 5) :
    widthChange u m l = some 1 ∧ widthSignals u m l = [] ∧
    (∀ pb, advisoryStr pb (some 1) = adviceTrend) ∧
    runScript close = Except.ok adviceTrend := by
  refine ⟨widthChange_short u m l hm, ?_, fun pb => advisoryStr_one pb, ?_⟩
  · have hx : ogt (some (1:ℚ)) (some (11/10)) = false := by
      simp [ogt]
      norm_num
    have hy : olt (some (1:ℚ)) (some (9/10)) = false := by
      simp [olt]
      norm_num
    simp [widthSignals, widthChange_short u m l hm, hx, hy]
  · match close with
    | c :: cs =>
      have hw : scriptWidthChange (c :: cs) = some 1 := by
        apply widthChange_short
        rw [bollMid_length]
        simpa using h5
      simp only [runScript, if_pos h2, scriptWidthChange] at *
      rw [hw, advisoryStr_one]

/-- Witness for claim C10 on a concrete two-bar series. -/
theorem short_series_width_one_witness :
    runScript [(10:ℚ), 11] = Except.ok adviceTrend :=
  (short_series_width_one [none] [none] [none] [10, 11]
    (by norm_num) (by norm_num) (by norm_num)).2.2.2
